import Mathlib

/-!
Shallow embedding of `src/jb444Lab3Proj/board/K65TWR_TSI.c`, the TSI
capacitive-touch driver of the EECE444 Lab 3 project, together with
theorems settling the specification claims about it.

Machine integers are embedded as `Nat` with explicit reduction `% 2 ^ w`
at the points where the C code stores into an `INT16U` or `INT8U` field,
or casts with `(INT16U)`.  The module-level mutable variables
(`tsiSensorLevels`, `tsiSensorFlags`, `tsiBuffer`) become fields of an
explicit state record threaded through the operations.  The hardware
raw count read from `TSI0->DATA & TSI_DATA_TSICNT_MASK` is an input
parameter of each operation that performs a scan.
-/

/-- Error codes of the underlying RTOS, treated by the driver as an
opaque status: `OS_ERR_NONE` is success, `OS_ERR_TIMEOUT` is the pend
timeout status, and `OS_ERR_TASK_FAIL` stands for any task-creation
failure code checked by the error trap in `TSIInit`. -/
inductive OS_ERR where
  | OS_ERR_NONE
  | OS_ERR_TIMEOUT
  | OS_ERR_TASK_FAIL
deriving DecidableEq

/-- The `TOUCH_LEVEL_T` struct: three `INT16U` fields per electrode. -/
structure TOUCH_LEVEL_T where
  baseline : Nat
  offset : Nat
  threshold : Nat
deriving DecidableEq

/-- `MAX_NUM_ELECTRODES` from the C source. -/
def MAX_NUM_ELECTRODES : Nat := 16

/-- `E1_TOUCH_OFFSET` (and `E2_TOUCH_OFFSET`) from the C source. -/
def E1_TOUCH_OFFSET : Nat := 0x0400

/-- Module state: `tsiSensorLevels` (the per-channel `TOUCH_LEVEL_T`
array), `tsiSensorFlags` (the `INT16U` working bitmask), and the two
fields of the `TSI_BUFFER` struct: `buffer` (the `INT8U` published
bitmask) and `sem` (the count of the `OS_SEM flag` notification
semaphore). -/
structure TsiState where
  levels : Nat → TOUCH_LEVEL_T
  tsiSensorFlags : Nat
  buffer : Nat
  sem : Nat

/-- Pointwise update of the `tsiSensorLevels` array at one channel. -/
def updLevels (f : Nat → TOUCH_LEVEL_T) (ch : Nat) (v : TOUCH_LEVEL_T) :
    Nat → TOUCH_LEVEL_T :=
  fun c => if c = ch then v else f c

/-- Modelled from the spec: `OSSemPost` of the RTOS is part of this
repository but not under `src/`.  The spec (sections 3 and 4.4)
describes the notification as a saturating binary signal: posting when
one notification is already pending is a no-op, so the pending count
never exceeds one. -/
def OSSemPost (n : Nat) : Nat := min (n + 1) 1

/-- Modelled from the spec: `OSSemPend` of the RTOS is part of this
repository but not under `src/`.  Per section 4.5 of the spec, a pend
with timeout `tout` succeeds immediately when a notification is already
pending (consuming it), succeeds when a post arrives before `tout`
elapses (abstracted by the `arrives` flag), and otherwise reports
`OS_ERR_TIMEOUT`.  It returns the status together with the new
semaphore count. -/
def OSSemPend (sem : Nat) (tout : Nat) (arrives : Bool) : OS_ERR × Nat :=
  if sem > 0 then (OS_ERR.OS_ERR_NONE, sem - 1)
  else if arrives then (OS_ERR.OS_ERR_NONE, sem)
  else (OS_ERR.OS_ERR_TIMEOUT, sem)

/-- The working bitmask computed by `tsiProcScan` for channel `ch` when
the raw count read from the data register is `raw`: the C code compares
`(INT16U)(TSI0->DATA & TSI_DATA_TSICNT_MASK)` with
`tsiSensorLevels[channel].threshold` and then executes either
`tsiSensorFlags |= (INT16U)(1<<channel)` or
`tsiSensorFlags &= (INT16U)(1<<channel)` (note: `&=` with the mask, not
with its complement). -/
def tsiProcScanFlags (ch raw : Nat) (s : TsiState) : Nat :=
  let cnt := raw % 2 ^ 16
  let mask := (1 <<< ch) % 2 ^ 16
  if cnt > (s.levels ch).threshold then
    (s.tsiSensorFlags ||| mask) % 2 ^ 16
  else
    (s.tsiSensorFlags &&& mask) % 2 ^ 16

/-- `tsiProcScan(channel)`: recompute the working bitmask, and when it
differs from `tsiBuffer.buffer` (an `INT8U` field, compared in C after
integer promotion against the full 16-bit working bitmask), store the
working bitmask into the 8-bit field (truncating) and post the
notification semaphore. -/
def tsiProcScan (ch raw : Nat) (s : TsiState) : TsiState :=
  if s.buffer ≠ tsiProcScanFlags ch raw s then
    { s with tsiSensorFlags := tsiProcScanFlags ch raw s,
             buffer := tsiProcScanFlags ch raw s % 2 ^ 8,
             sem := OSSemPost s.sem }
  else
    { s with tsiSensorFlags := tsiProcScanFlags ch raw s }

/-- Number of `OSSemPost` calls performed by one `tsiProcScan` call. -/
def tsiProcScanPosts (ch raw : Nat) (s : TsiState) : Nat :=
  if s.buffer ≠ tsiProcScanFlags ch raw s then 1 else 0

/-- `TSIChCalibration(channel)`: start a scan, busy-wait for it, read
the raw count, store it as the baseline, and store
`baseline + offset` into the `INT16U` threshold field. -/
def TSIChCalibration (ch raw : Nat) (s : TsiState) : TsiState :=
  let baseline := raw % 2 ^ 16
  let lvl := s.levels ch
  let lvl2 : TOUCH_LEVEL_T :=
    { baseline := baseline, offset := lvl.offset,
      threshold := (baseline + lvl.offset) % 2 ^ 16 }
  { s with levels := updLevels s.levels ch lvl2 }

/-- `TSIPend(tout, os_err)`: pend on `tsiBuffer.flag` with timeout
`tout`, then return `tsiBuffer.buffer` unconditionally; the status goes
out through `os_err`.  Returns (value, status, new state). -/
def TSIPend (tout : Nat) (arrives : Bool) (s : TsiState) :
    Nat × OS_ERR × TsiState :=
  let p := OSSemPend s.sem tout arrives
  (s.buffer, p.1, { s with sem := p.2 })

/-- Observable actions of one pass of the `TSITask` loop body:
starting a scan of a channel, or processing a channel. -/
inductive TsiEvent where
  | start (ch : Nat)
  | proc (ch : Nat)
deriving DecidableEq

/-- The `TSI_TASK_STATE_T` enum embedded as `Nat`: `PROC1START2 = 0`,
`PROC2START1 = 1`; other values reach only the `default` branch. -/
def PROC1START2 : Nat := 0

/-- Second enumerator of `TSI_TASK_STATE_T`. -/
def PROC2START1 : Nat := 1

/-- Successor state of one `TSITask` period: the `switch` writes
`PROC2START1` in the `PROC1START2` case, `PROC1START2` in the
`PROC2START1` case, and `PROC1START2` in the `default` case. -/
def tsiTaskNext (st : Nat) : Nat :=
  match st with
  | 0 => 1
  | 1 => 0
  | _ => 0

/-- Event trace of one `TSITask` period entered in state `st`, with
`pad1 = BRD_PAD1_CH` and `pad2 = BRD_PAD2_CH`: every period first calls
`tsiStartScan(BRD_PAD1_CH)` unconditionally, then the `switch` runs
`tsiProcScan` and `tsiStartScan` according to the state, and the
`default` branch does neither. -/
def tsiPeriodEvents (pad1 pad2 st : Nat) : List TsiEvent :=
  match st with
  | 0 => [TsiEvent.start pad1, TsiEvent.proc pad1, TsiEvent.start pad2]
  | 1 => [TsiEvent.start pad1, TsiEvent.proc pad2, TsiEvent.start pad1]
  | _ => [TsiEvent.start pad1]

/-- Channels processed during one period entered in state `st`. -/
def processedIn (pad1 pad2 st : Nat) : List Nat :=
  (tsiPeriodEvents pad1 pad2 st).filterMap
    (fun e => match e with
      | TsiEvent.proc c => some c
      | TsiEvent.start _ => none)

/-- Scan-cycle state after `n` periods; the `static` initializer of
`tsiTaskState` is `PROC1START2`. -/
def tsiTaskStateAt : Nat → Nat
  | 0 => PROC1START2
  | n + 1 => tsiTaskNext (tsiTaskStateAt n)

/-- The partner electrode of a channel, for a board wiring only `pad1`
and `pad2`. -/
def otherPad (pad1 pad2 c : Nat) : Nat :=
  if c = pad1 then pad2 else pad1

/-- Checks an event list against the policy that every scan start is
preceded, within the list, by a processing of the other electrode:
`done` accumulates the channels processed so far. -/
def startsFollowedCheck (other : Nat → Nat) :
    List Nat → List TsiEvent → Bool
  | _, [] => true
  | done, TsiEvent.proc c :: rest => startsFollowedCheck other (c :: done) rest
  | done, TsiEvent.start c :: rest =>
      done.contains (other c) && startsFollowedCheck other done rest

/-- One iteration of the error trap `while(os_err != OS_ERR_NONE){}` at
the end of `TSIInit`: the loop body is empty, so the state is
unchanged. -/
def tsiInitTrapStep (err : OS_ERR) : OS_ERR := err

/-- The error value seen by the `TSIInit` error trap after `n`
iterations of the loop. -/
def tsiInitTrapRun (err : OS_ERR) : Nat → OS_ERR
  | 0 => err
  | n + 1 =>
      if tsiInitTrapRun err n ≠ OS_ERR.OS_ERR_NONE then
        tsiInitTrapStep (tsiInitTrapRun err n)
      else
        tsiInitTrapRun err n

/-- State of the module right after the assignments
`tsiBuffer.buffer = 0x00` and `OSSemCreate(..., 0, ...)` in `TSIInit`,
with `tsiSensorFlags` at its static initializer `0`. -/
def tsiInitState (levels : Nat → TOUCH_LEVEL_T) : TsiState :=
  { levels := levels, tsiSensorFlags := 0, buffer := 0, sem := 0 }

/-! ## Helper lemmas about `tsiProcScan` -/

/-- Processing never writes the calibration array. -/
theorem tsiProcScan_levels (ch raw : Nat) (s : TsiState) :
    (tsiProcScan ch raw s).levels = s.levels := by
  unfold tsiProcScan
  split <;> rfl

/-- The working bitmask after processing is `tsiProcScanFlags`. -/
theorem tsiProcScan_flagsField (ch raw : Nat) (s : TsiState) :
    (tsiProcScan ch raw s).tsiSensorFlags = tsiProcScanFlags ch raw s := by
  unfold tsiProcScan
  split <;> rfl

/-- Unfolding equation for `tsiProcScanFlags`. -/
theorem tsiProcScanFlags_eq (ch raw : Nat) (s : TsiState) :
    tsiProcScanFlags ch raw s =
      if raw % 2 ^ 16 > (s.levels ch).threshold then
        (s.tsiSensorFlags ||| (1 <<< ch) % 2 ^ 16) % 2 ^ 16
      else
        (s.tsiSensorFlags &&& (1 <<< ch) % 2 ^ 16) % 2 ^ 16 := rfl

/-- The working bitmask always fits the `INT16U` field. -/
theorem tsiProcScanFlags_lt (ch raw : Nat) (s : TsiState) :
    tsiProcScanFlags ch raw s < 2 ^ 16 := by
  rw [tsiProcScanFlags_eq]
  split <;> exact Nat.mod_lt _ (by norm_num)

/-- Published-buffer equation for `tsiProcScan`. -/
theorem tsiProcScan_buffer (ch raw : Nat) (s : TsiState) :
    (tsiProcScan ch raw s).buffer =
      if s.buffer ≠ tsiProcScanFlags ch raw s then
        tsiProcScanFlags ch raw s % 2 ^ 8
      else s.buffer := by
  by_cases h : s.buffer ≠ tsiProcScanFlags ch raw s
  · rw [if_pos h]
    unfold tsiProcScan
    rw [if_pos h]
  · rw [if_neg h]
    unfold tsiProcScan
    rw [if_neg h]

/-- Semaphore equation for `tsiProcScan`. -/
theorem tsiProcScan_sem (ch raw : Nat) (s : TsiState) :
    (tsiProcScan ch raw s).sem =
      if s.buffer ≠ tsiProcScanFlags ch raw s then OSSemPost s.sem
      else s.sem := by
  by_cases h : s.buffer ≠ tsiProcScanFlags ch raw s
  · rw [if_pos h]
    unfold tsiProcScan
    rw [if_pos h]
  · rw [if_neg h]
    unfold tsiProcScan
    rw [if_neg h]

/-- When the working bitmask is unchanged, `tsiProcScan` only rewrites
the working-bitmask variable with its own value. -/
theorem tsiProcScan_noop (ch raw : Nat) (s : TsiState)
    (h : s.buffer = tsiProcScanFlags ch raw s) :
    tsiProcScan ch raw s = { s with tsiSensorFlags := tsiProcScanFlags ch raw s } := by
  unfold tsiProcScan
  rw [if_neg (fun hn => hn h)]

/-- Recomputing the working bitmask right after a processing step with
the same raw count yields the same value, because both the `|=` and the
`&=` updates are idempotent. -/
theorem tsiProcScanFlags_idem (ch raw : Nat) (s : TsiState)
    (hf : s.tsiSensorFlags < 2 ^ 16) :
    tsiProcScanFlags ch raw (tsiProcScan ch raw s) = tsiProcScanFlags ch raw s := by
  have hm : (1 <<< ch) % 2 ^ 16 < 2 ^ 16 := Nat.mod_lt _ (by norm_num)
  rw [tsiProcScanFlags_eq ch raw (tsiProcScan ch raw s), tsiProcScan_levels,
      tsiProcScan_flagsField, tsiProcScanFlags_eq ch raw s]
  by_cases h : raw % 2 ^ 16 > (s.levels ch).threshold
  · simp only [if_pos h]
    rw [Nat.mod_eq_of_lt (Nat.or_lt_two_pow hf hm), Nat.or_assoc, Nat.or_self,
        Nat.mod_eq_of_lt (Nat.or_lt_two_pow hf hm)]
  · simp only [if_neg h]
    have hand : s.tsiSensorFlags &&& 1 <<< ch % 2 ^ 16 < 2 ^ 16 :=
      Nat.lt_of_le_of_lt Nat.and_le_right hm
    rw [Nat.mod_eq_of_lt hand, Nat.and_assoc, Nat.and_self,
        Nat.mod_eq_of_lt hand]

/-- When the new working bitmask fits in 8 bits, the published buffer
after processing equals the working bitmask exactly. -/
theorem tsiProcScan_buffer_eq (ch raw : Nat) (s : TsiState)
    (h8 : tsiProcScanFlags ch raw s < 2 ^ 8) :
    (tsiProcScan ch raw s).buffer = tsiProcScanFlags ch raw s := by
  rw [tsiProcScan_buffer]
  by_cases h : s.buffer ≠ tsiProcScanFlags ch raw s
  · rw [if_pos h, Nat.mod_eq_of_lt h8]
  · rw [if_neg h]
    exact not_not.mp h

/-- Core stability lemma: as long as the working bitmask fits in the
8-bit buffer field, a second processing step with the same raw count
posts nothing and changes nothing. -/
theorem tsiProcScan_stable (ch raw : Nat) (s : TsiState)
    (hf : s.tsiSensorFlags < 2 ^ 16)
    (h8 : tsiProcScanFlags ch raw s < 2 ^ 8) :
    tsiProcScanPosts ch raw (tsiProcScan ch raw s) = 0
    ∧ tsiProcScan ch raw (tsiProcScan ch raw s) = tsiProcScan ch raw s := by
  have hidem := tsiProcScanFlags_idem ch raw s hf
  have hbuf := tsiProcScan_buffer_eq ch raw s h8
  have hguard : (tsiProcScan ch raw s).buffer
      = tsiProcScanFlags ch raw (tsiProcScan ch raw s) := by
    rw [hidem, hbuf]
  refine ⟨?_, ?_⟩
  · unfold tsiProcScanPosts
    rw [if_neg (not_not.mpr hguard)]
  · rw [tsiProcScan_noop ch raw (tsiProcScan ch raw s) hguard, hidem,
        ← tsiProcScan_flagsField ch raw s]

/-! ## Claim theorems -/

/-- Claim C1, evaluated at a failing input: with threshold 2048,
previous working bitmask `0b11` (bits 0 and 1 set) and a raw count of
100 that does not exceed the threshold, `tsiProcScan` on channel 0
leaves bit 0 of the working bitmask set and clears bit 1 instead,
because the below-threshold branch executes
`tsiSensorFlags &= (INT16U)(1<<channel)` rather than clearing bit 0
with the complemented mask.  The claim says bit 0 is cleared. -/
theorem c1_below_threshold_keeps_bit :
    (tsiProcScan 0 100
        ⟨fun _ => ⟨1024, 1024, 2048⟩, 3, 3, 0⟩).tsiSensorFlags = 1
    ∧ ((tsiProcScan 0 100
        ⟨fun _ => ⟨1024, 1024, 2048⟩, 3, 3, 0⟩).tsiSensorFlags).testBit 0 = true
    ∧ ((tsiProcScan 0 100
        ⟨fun _ => ⟨1024, 1024, 2048⟩, 3, 3, 0⟩).tsiSensorFlags).testBit 1 = false := by
  decide

/-- Claim C2, counterexample: on channel 8 the working bitmask becomes
`256`, which differs from the buffer value `0`, so a publish happens;
but the 8-bit buffer field then holds `256 % 2^8 = 0`, not the working
value `256`. -/
theorem c2_counterexample :
    tsiProcScanFlags 8 1 (tsiInitState fun _ => ⟨0, 0, 0⟩) = 256
    ∧ (tsiInitState fun _ => ⟨0, 0, 0⟩).buffer
        ≠ tsiProcScanFlags 8 1 (tsiInitState fun _ => ⟨0, 0, 0⟩)
    ∧ (tsiProcScan 8 1 (tsiInitState fun _ => ⟨0, 0, 0⟩)).buffer = 0 := by
  decide

/-- Claim C2 as amended: when the working bitmask differs from the
buffer's current bitmask, the buffer's bitmask is overwritten with the
working value reduced modulo `2^8` (the stored field is 8 bits wide)
and exactly one notification is posted; the notification is saturating,
so posting while one is pending is a no-op and the pending count never
exceeds one. -/
theorem c2_publish_on_change (ch raw : Nat) (s : TsiState)
    (hne : s.buffer ≠ tsiProcScanFlags ch raw s) :
    (tsiProcScan ch raw s).buffer = tsiProcScanFlags ch raw s % 2 ^ 8
    ∧ tsiProcScanPosts ch raw s = 1
    ∧ (tsiProcScan ch raw s).sem = OSSemPost s.sem
    ∧ OSSemPost 1 = 1
    ∧ (∀ m, OSSemPost m ≤ 1) := by
  refine ⟨?_, ?_, ?_, rfl, ?_⟩
  · rw [tsiProcScan_buffer, if_pos hne]
  · unfold tsiProcScanPosts
    rw [if_pos hne]
  · rw [tsiProcScan_sem, if_pos hne]
  · intro m
    unfold OSSemPost
    exact Nat.min_le_right _ _

/-- Claim C2 witness at a concrete input. -/
theorem c2_witness :
    tsiProcScanPosts 0 1 (tsiInitState fun _ => ⟨0, 0, 0⟩) = 1 :=
  (c2_publish_on_change 0 1 (tsiInitState fun _ => ⟨0, 0, 0⟩) (by decide)).2.1

/-- Claim C3, counterexample: on channel 8 with a raw count above the
threshold, two consecutive processing steps produce the identical
working bitmask `256`, yet both of them post a notification, because
the 8-bit buffer (holding `256 % 2^8 = 0`) never compares equal to the
16-bit working bitmask. -/
theorem c3_counterexample :
    tsiProcScanPosts 8 3 (tsiInitState fun _ => ⟨0, 0, 0⟩) = 1
    ∧ (tsiProcScan 8 3 (tsiInitState fun _ => ⟨0, 0, 0⟩)).tsiSensorFlags = 256
    ∧ tsiProcScanFlags 8 3 (tsiProcScan 8 3 (tsiInitState fun _ => ⟨0, 0, 0⟩)) = 256
    ∧ tsiProcScanPosts 8 3 (tsiProcScan 8 3 (tsiInitState fun _ => ⟨0, 0, 0⟩)) = 1 := by
  decide

/-- Claim C3 as amended: when the working bitmask equals the buffer's
stored bitmask the buffer is not mutated and no notification is posted;
and repeated identical bitmasks across consecutive periods post zero
additional notifications provided the working bitmask fits in the 8-bit
buffer field (value below `2^8`). -/
theorem c3_unchanged_frame (ch raw : Nat) (s : TsiState)
    (hf : s.tsiSensorFlags < 2 ^ 16) :
    (s.buffer = tsiProcScanFlags ch raw s →
        tsiProcScan ch raw s = { s with tsiSensorFlags := tsiProcScanFlags ch raw s }
        ∧ (tsiProcScan ch raw s).buffer = s.buffer
        ∧ (tsiProcScan ch raw s).sem = s.sem
        ∧ tsiProcScanPosts ch raw s = 0)
    ∧ (tsiProcScanFlags ch raw s < 2 ^ 8 →
        tsiProcScanPosts ch raw (tsiProcScan ch raw s) = 0) := by
  constructor
  · intro heq
    refine ⟨tsiProcScan_noop ch raw s heq, ?_, ?_, ?_⟩
    · rw [tsiProcScan_buffer, if_neg (fun hn => hn heq)]
    · rw [tsiProcScan_sem, if_neg (fun hn => hn heq)]
    · unfold tsiProcScanPosts
      rw [if_neg (fun hn => hn heq)]
  · intro h8
    exact (tsiProcScan_stable ch raw s hf h8).1

/-- Claim C3 witness at a concrete input. -/
theorem c3_witness :
    tsiProcScanPosts 0 0 (tsiInitState fun _ => ⟨0, 0, 0⟩) = 0 :=
  ((c3_unchanged_frame 0 0 (tsiInitState fun _ => ⟨0, 0, 0⟩)
      (by decide)).1 (by decide)).2.2.2

/-- Claim C4: the scan-cycle state starts at `PROC1START2` (S1), the
state after `n` periods is `n % 2` (strict alternation S1, S2, S1, ...),
in S1 the period processes electrode 1 and then starts electrode 2's
scan before moving to S2, in S2 it processes electrode 2 and then
starts electrode 1's scan before moving to S1, any other state value
resets to S1 without processing, and over consecutive periods starting
from S1 electrode 1 is processed on odd periods and electrode 2 on even
periods (1-indexed). -/
theorem c4_scan_cycle_alternation (pad1 pad2 : Nat) :
    tsiTaskStateAt 0 = PROC1START2
    ∧ (∀ n, tsiTaskStateAt n = n % 2)
    ∧ tsiPeriodEvents pad1 pad2 PROC1START2
        = [TsiEvent.start pad1, TsiEvent.proc pad1, TsiEvent.start pad2]
    ∧ tsiTaskNext PROC1START2 = PROC2START1
    ∧ tsiPeriodEvents pad1 pad2 PROC2START1
        = [TsiEvent.start pad1, TsiEvent.proc pad2, TsiEvent.start pad1]
    ∧ tsiTaskNext PROC2START1 = PROC1START2
    ∧ (∀ st, 2 ≤ st → tsiTaskNext st = PROC1START2 ∧ processedIn pad1 pad2 st = [])
    ∧ (∀ k, 1 ≤ k →
        (k % 2 = 1 → processedIn pad1 pad2 (tsiTaskStateAt (k - 1)) = [pad1])
        ∧ (k % 2 = 0 → processedIn pad1 pad2 (tsiTaskStateAt (k - 1)) = [pad2])) := by
  have hmod : ∀ n, tsiTaskStateAt n = n % 2 := by
    intro n
    induction n with
    | zero => rfl
    | succ n ih =>
        have h2 : tsiTaskStateAt (n + 1) = tsiTaskNext (tsiTaskStateAt n) := rfl
        rw [h2, ih]
        rcases Nat.mod_two_eq_zero_or_one n with h | h <;>
          simp [tsiTaskNext, h] <;> omega
  refine ⟨rfl, hmod, rfl, rfl, rfl, rfl, ?_, ?_⟩
  · intro st hst
    obtain ⟨m, rfl⟩ : ∃ m, st = m + 2 := ⟨st - 2, by omega⟩
    exact ⟨rfl, rfl⟩
  · intro k hk
    constructor
    · intro hodd
      have h1 : (k - 1) % 2 = 0 := by omega
      rw [hmod (k - 1), h1]
      rfl
    · intro heven
      have h1 : (k - 1) % 2 = 1 := by omega
      rw [hmod (k - 1), h1]
      rfl

/-- Claim C4 witness at a concrete input. -/
theorem c4_witness :
    processedIn 11 12 (tsiTaskStateAt (3 - 1)) = [11] :=
  ((c4_scan_cycle_alternation 11 12).2.2.2.2.2.2.2 3 (by decide)).1 (by decide)

/-- Claim C5, counterexample: calibrating with offset `0x0400` and a
raw count of `0xFFFF` stores threshold
`(0xFFFF + 0x0400) % 2^16 = 0x03FF`, which is not `baseline + offset`
(`0x103FF`), because the `INT16U` threshold field wraps around. -/
theorem c5_counterexample :
    ((TSIChCalibration 3 0xFFFF
        (tsiInitState fun _ => ⟨0, E1_TOUCH_OFFSET, 0⟩)).levels 3).threshold = 0x03FF
    ∧ ((TSIChCalibration 3 0xFFFF
        (tsiInitState fun _ => ⟨0, E1_TOUCH_OFFSET, 0⟩)).levels 3).baseline
      + ((TSIChCalibration 3 0xFFFF
        (tsiInitState fun _ => ⟨0, E1_TOUCH_OFFSET, 0⟩)).levels 3).offset = 0x103FF := by
  decide

/-- Claim C5 as amended: after `TSIChCalibration(e)` the baseline
equals the 16-bit raw count of the scan it started, the offset is
unchanged, and the threshold equals `(baseline + offset) % 2^16`
(`INT16U` wraparound), which is exactly `baseline + offset` whenever
that sum fits in 16 bits; re-invoking calibration overwrites the prior
baseline and threshold with no history retained. -/
theorem c5_calibration (ch raw raw2 : Nat) (s : TsiState) :
    ((TSIChCalibration ch raw s).levels ch).baseline = raw % 2 ^ 16
    ∧ ((TSIChCalibration ch raw s).levels ch).offset = (s.levels ch).offset
    ∧ ((TSIChCalibration ch raw s).levels ch).threshold
        = (raw % 2 ^ 16 + (s.levels ch).offset) % 2 ^ 16
    ∧ (raw % 2 ^ 16 + (s.levels ch).offset < 2 ^ 16 →
        ((TSIChCalibration ch raw s).levels ch).threshold
          = ((TSIChCalibration ch raw s).levels ch).baseline
            + ((TSIChCalibration ch raw s).levels ch).offset)
    ∧ (TSIChCalibration ch raw2 (TSIChCalibration ch raw s)).levels ch
        = (TSIChCalibration ch raw2 s).levels ch := by
  refine ⟨?_, ?_, ?_, ?_, ?_⟩
  · simp [TSIChCalibration, updLevels]
  · simp [TSIChCalibration, updLevels]
  · simp [TSIChCalibration, updLevels]
  · intro hlt
    simp [TSIChCalibration, updLevels]
    omega
  · simp [TSIChCalibration, updLevels]

/-- Claim C5 witness at a concrete input (the spec example: baseline
1024, offset 1024, threshold 2048). -/
theorem c5_witness :
    ((TSIChCalibration 2 1024 (tsiInitState fun _ => ⟨0, 1024, 0⟩)).levels 2).threshold
      = ((TSIChCalibration 2 1024 (tsiInitState fun _ => ⟨0, 1024, 0⟩)).levels 2).baseline
        + ((TSIChCalibration 2 1024 (tsiInitState fun _ => ⟨0, 1024, 0⟩)).levels 2).offset :=
  (c5_calibration 2 1024 0 (tsiInitState fun _ => ⟨0, 1024, 0⟩)).2.2.2.1 (by decide)

/-- Claim C6, counterexample: the claim requires every scan start to
follow the completion of the other electrode's processing within the
same period, but both the S1-period and the S2-period event traces
begin with the unconditional `tsiStartScan(BRD_PAD1_CH)` before any
processing, so the check fails; moreover an S2 period starts electrode
1's scan twice (once at the top of the period and once after processing
electrode 2), so it is not the case that exactly one scan is in flight
at all times. -/
theorem c6_counterexample :
    startsFollowedCheck (otherPad 11 12) [] (tsiPeriodEvents 11 12 PROC2START1) = false
    ∧ startsFollowedCheck (otherPad 11 12) [] (tsiPeriodEvents 11 12 PROC1START2) = false
    ∧ (tsiPeriodEvents 11 12 PROC2START1).count (TsiEvent.start 11) = 2 := by
  decide

/-- Claim C6 as amended: every period's first action is the
unconditional start of electrode 1's scan; every other scan start in
the period follows the completion of the other electrode's processing
within that period; and in an S2 period electrode 1's scan is started
twice, so more than one started-and-unprocessed scan can be
outstanding. -/
theorem c6_leading_start (pad1 pad2 : Nat) (hne : pad1 ≠ pad2) :
    (∀ st, (tsiPeriodEvents pad1 pad2 st).head? = some (TsiEvent.start pad1))
    ∧ (∀ st, startsFollowedCheck (otherPad pad1 pad2) []
        ((tsiPeriodEvents pad1 pad2 st).tail) = true)
    ∧ (tsiPeriodEvents pad1 pad2 PROC2START1).count (TsiEvent.start pad1) = 2 := by
  refine ⟨?_, ?_, ?_⟩
  · intro st
    rcases st with _ | _ | m <;> rfl
  · intro st
    rcases st with _ | _ | m
    · simp [tsiPeriodEvents, startsFollowedCheck, otherPad, Ne.symm hne]
    · simp [tsiPeriodEvents, startsFollowedCheck, otherPad]
    · rfl
  · simp [tsiPeriodEvents, PROC2START1, List.count_cons]

/-- Claim C6 witness at a concrete input. -/
theorem c6_witness :
    startsFollowedCheck (otherPad 11 12) []
      ((tsiPeriodEvents 11 12 PROC1START2).tail) = true :=
  (c6_leading_start 11 12 (by decide)).2.1 PROC1START2

/-- Claim C7: with no notification pending and none arriving within the
timeout, `TSIPend` reports `OS_ERR_TIMEOUT` and the held bitmask is not
destroyed (the buffer keeps its value and is still what the call
returns); when a notification is pending or arrives before the timeout
elapses, `TSIPend` returns the buffer's current bitmask with the
success status. -/
theorem c7_pend_timeout_or_latest (tout : Nat) (s : TsiState) :
    (s.sem = 0 →
        (TSIPend tout false s).2.1 = OS_ERR.OS_ERR_TIMEOUT
        ∧ (TSIPend tout false s).1 = s.buffer
        ∧ (TSIPend tout false s).2.2.buffer = s.buffer)
    ∧ ((TSIPend tout true s).2.1 = OS_ERR.OS_ERR_NONE
        ∧ (TSIPend tout true s).1 = s.buffer) := by
  constructor
  · intro h0
    refine ⟨?_, rfl, rfl⟩
    simp [TSIPend, OSSemPend, h0]
  · refine ⟨?_, rfl⟩
    by_cases hs : s.sem > 0 <;> simp [TSIPend, OSSemPend, hs]

/-- Claim C7 witness at a concrete input. -/
theorem c7_witness :
    (TSIPend 5 false (tsiInitState fun _ => ⟨0, 0, 0⟩)).2.1
      = OS_ERR.OS_ERR_TIMEOUT :=
  ((c7_pend_timeout_or_latest 5 (tsiInitState fun _ => ⟨0, 0, 0⟩)).1 rfl).1

/-- Claim C8, counterexample: on channel 8 with a raw count above the
threshold, the first `tsiProcScan` posts a notification and the second
call with the same raw count posts again, because the 8-bit buffer
holds `256 % 2^8 = 0` and never compares equal to the 16-bit working
bitmask `256` — a double post. -/
theorem c8_counterexample :
    tsiProcScanPosts 8 5 (tsiInitState fun _ => ⟨0, 0, 0⟩) = 1
    ∧ tsiProcScanPosts 8 5 (tsiProcScan 8 5 (tsiInitState fun _ => ⟨0, 0, 0⟩)) = 1 := by
  decide

/-- Claim C8 as amended: calling `tsiProcScan` twice in succession with
the same underlying raw count posts at most one notification provided
the working bitmask produced by the first call fits in the 8-bit buffer
field: the second call finds the bitmask unchanged, posts nothing and
leaves the state unchanged. -/
theorem c8_no_double_post (ch raw : Nat) (s : TsiState)
    (hf : s.tsiSensorFlags < 2 ^ 16)
    (h8 : tsiProcScanFlags ch raw s < 2 ^ 8) :
    tsiProcScanPosts ch raw (tsiProcScan ch raw s) = 0
    ∧ tsiProcScan ch raw (tsiProcScan ch raw s) = tsiProcScan ch raw s
    ∧ tsiProcScanPosts ch raw s
        + tsiProcScanPosts ch raw (tsiProcScan ch raw s) ≤ 1 := by
  obtain ⟨h1, h2⟩ := tsiProcScan_stable ch raw s hf h8
  refine ⟨h1, h2, ?_⟩
  rw [h1]
  unfold tsiProcScanPosts
  split <;> omega

/-- Claim C8 witness at a concrete input. -/
theorem c8_witness :
    tsiProcScanPosts 0 9999 (tsiProcScan 0 9999 (tsiInitState fun _ => ⟨0, 0, 2048⟩)) = 0 :=
  (c8_no_double_post 0 9999 (tsiInitState fun _ => ⟨0, 0, 2048⟩)
    (by decide) (by decide)).1

/-- Claim C9: if task creation in `TSIInit` fails (the RTOS returns an
error code other than `OS_ERR_NONE`), the error trap
`while(os_err != OS_ERR_NONE){}` has an empty body, so its guard is
still true after every number of iterations: startup halts in the trap
and `TSIInit` never returns normally. -/
theorem c9_init_error_trap (e : OS_ERR) (h : e ≠ OS_ERR.OS_ERR_NONE) :
    ∀ n, tsiInitTrapRun e n ≠ OS_ERR.OS_ERR_NONE := by
  intro n
  induction n with
  | zero => exact h
  | succ n ih =>
      have h2 : tsiInitTrapRun e (n + 1)
          = if tsiInitTrapRun e n ≠ OS_ERR.OS_ERR_NONE then
              tsiInitTrapStep (tsiInitTrapRun e n)
            else tsiInitTrapRun e n := rfl
      rw [h2, if_pos ih]
      exact ih

/-- Claim C9 witness at a concrete input. -/
theorem c9_witness :
    tsiInitTrapRun OS_ERR.OS_ERR_TASK_FAIL 5 ≠ OS_ERR.OS_ERR_NONE :=
  c9_init_error_trap OS_ERR.OS_ERR_TASK_FAIL (by decide) 5

/-- Claim C10: the buffer field is 8 bits while the working bitmask is
16 bits: every publish stores the working bitmask reduced modulo `2^8`;
the stored value stays below `2^8`; `TSIPend` returns exactly the
stored buffer; hence for any electrode channel of number 8 or greater
that electrode's touch bit is never observable through `TSIPend`; and
the change-detection guard compares the 8-bit stored value with the
full 16-bit working bitmask, which itself ranges up to `2^16`. -/
theorem c10_buffer_truncation (ch raw : Nat) (s : TsiState) :
    (s.buffer ≠ tsiProcScanFlags ch raw s →
        (tsiProcScan ch raw s).buffer = tsiProcScanFlags ch raw s % 2 ^ 8)
    ∧ (s.buffer < 2 ^ 8 → (tsiProcScan ch raw s).buffer < 2 ^ 8)
    ∧ (∀ tout arrives, (TSIPend tout arrives s).1 = s.buffer)
    ∧ (s.buffer < 2 ^ 8 → 8 ≤ ch →
        ∀ tout arrives, ((TSIPend tout arrives s).1).testBit ch = false)
    ∧ tsiProcScanFlags ch raw s < 2 ^ 16 := by
  refine ⟨?_, ?_, ?_, ?_, tsiProcScanFlags_lt ch raw s⟩
  · intro hne
    rw [tsiProcScan_buffer, if_pos hne]
  · intro h8
    rw [tsiProcScan_buffer]
    split
    · exact Nat.mod_lt _ (by norm_num)
    · exact h8
  · intro tout arrives
    rfl
  · intro h8 hch tout arrives
    exact Nat.testBit_lt_two_pow
      (Nat.lt_of_lt_of_le h8 (Nat.pow_le_pow_right (by norm_num) hch))

/-- Claim C10 witness at a concrete input: channel 11 (the board's
first touch pad) is never observable through `TSIPend`. -/
theorem c10_witness :
    ((TSIPend 7 false (tsiInitState fun _ => ⟨0, 0, 0⟩)).1).testBit 11 = false :=
  (c10_buffer_truncation 11 0 (tsiInitState fun _ => ⟨0, 0, 0⟩)).2.2.2.1
    (by decide) (by decide) 7 false
